import Mathlib

/-!
Verification development for the browser-automation core
(`source_code/utils/decorators.py`, `source_code/processors/.../selenium_scraper.py`,
`source_code/processors/geocoding_processor/geocoder.py`).

Python strings are modelled as `List Char`; directory listings as
`List (List Char)`; wall-clock poll loops by an explicit fuel counting the
number of polls that fit before the deadline; the live browser is an oracle
(a function from step index to observed outcome).
-/

namespace Automation

/-! ## Python string operations used by the code -/

/-- Model of Python `s.startswith(pat)` on `List Char`: `pat` matches the
front of `s`. -/
def hasStart : List Char → List Char → Bool
  | _, [] => true
  | [], _ :: _ => false
  | a :: s, b :: p => a == b && hasStart s p

/-- Model of Python `s.endswith(pat)`: `pat` matches the back of `s`. -/
def pyEndsWith (s pat : List Char) : Bool :=
  hasStart s.reverse pat.reverse

/-- Model of Python `pat in s` (substring containment). -/
def pyInStr (pat : List Char) : List Char → Bool
  | [] => pat.isEmpty
  | c :: t => hasStart (c :: t) pat || pyInStr pat t

/-- Model of Python `s.lower()`. -/
def pyLower (s : List Char) : List Char := s.map Char.toLower

/-! ## Download completion detector (`decorators.check_new_file`) -/

/-- decorators.py line 42: `str(f).lower().endswith((".crdownload", ".tmp"))` —
a new file still being written (a provisional download artifact). -/
def isProvisional (f : List Char) : Bool :=
  pyEndsWith (pyLower f) ['.', 'c', 'r', 'd', 'o', 'w', 'n', 'l', 'o', 'a', 'd'] ||
  pyEndsWith (pyLower f) ['.', 't', 'm', 'p']

/-- One iteration of the polling loop body (decorators.py lines 38-49):
`new_files = listing - snapshot`, `tmp_files = provisional new files`,
`downloaded_files = new_files - tmp_files`; the poll succeeds when
`downloaded_files` is non-empty. -/
def pollOnce (snapshot listing : List (List Char)) : Bool :=
  let newFiles := listing.filter (fun f => !(decide (f ∈ snapshot)))
  let tmpFiles := newFiles.filter (fun f => isProvisional f)
  let downloaded := newFiles.filter (fun f => !(decide (f ∈ tmpFiles)))
  !downloaded.isEmpty

/-- The `while time.time() < end_time` polling loop of `check_new_file`
(decorators.py lines 36-53): `dirAt n` is the directory listing observed at
the n-th poll, `fuel` the number of polls that fit before `end_time`.
Returns `false` when the deadline passes with no finished new file. -/
def pollLoop (snapshot : List (List Char)) (dirAt : Nat → List (List Char)) :
    Nat → Nat → Bool
  | 0, _ => false
  | fuel + 1, i => if pollOnce snapshot (dirAt i) then true else pollLoop snapshot dirAt fuel (i + 1)

/-- decorators.py `check_new_file` wrapper: `snapshot` is the directory
listing taken before the trigger (`initial_files`, line 25), `clicked` the
trigger action's result (line 31), `dirAt` the listings the subsequent polls
observe. If the trigger reports failure the wrapper returns `false` at once
(lines 32-33) without consulting `dirAt`. -/
def check_new_file (snapshot : List (List Char)) (clicked : Bool)
    (dirAt : Nat → List (List Char)) (fuel : Nat) : Bool :=
  if !clicked then false else pollLoop snapshot dirAt fuel 0

/-! ## `SeleniumScraper.file_download` and `get_screenshot` -/

/-- selenium_scraper.py line 297: the screenshot file name is the timestamp
`now.strftime("%Y-%m-%d_%H%M%S")` with `".png"` appended. -/
def screenshotName (ts : List Char) : List Char := ts ++ ['.', 'p', 'n', 'g']

/-- selenium_scraper.py `file_download` (lines 264-286) as wrapped by
`check_new_file`: the inner function first saves a screenshot into the
download directory (so every post-trigger listing contains
`screenshotName ts` when the capture succeeded), then clicks the download
control; `base n` is the rest of the directory contents at poll n. -/
def file_download (snapshot : List (List Char)) (ts : List Char)
    (shotOk clicked : Bool) (base : Nat → List (List Char)) (fuel : Nat) : Bool :=
  check_new_file snapshot clicked
    (fun i => (if shotOk then [screenshotName ts] else []) ++ base i) fuel

/-! ## Lemmas about the detector -/

lemma hasStart_false_of_head_ne (x y : Char) (s p : List Char) (h : (x == y) = false) :
    hasStart (x :: s) (y :: p) = false := by
  simp [hasStart, h]

lemma rev_png : (['.', 'p', 'n', 'g'] : List Char).reverse = ['g', 'n', 'p', '.'] := by decide

lemma rev_crd : (['.', 'c', 'r', 'd', 'o', 'w', 'n', 'l', 'o', 'a', 'd'] : List Char).reverse =
    ['d', 'a', 'o', 'l', 'n', 'w', 'o', 'd', 'r', 'c', '.'] := by decide

lemma rev_tmp : (['.', 't', 'm', 'p'] : List Char).reverse = ['p', 'm', 't', '.'] := by decide

/-- A timestamped screenshot name never carries a provisional suffix. -/
lemma screenshot_not_provisional (ts : List Char) :
    isProvisional (screenshotName ts) = false := by
  have h1 : pyLower (screenshotName ts) = pyLower ts ++ ['.', 'p', 'n', 'g'] := by
    unfold screenshotName pyLower
    rw [List.map_append]
    congr 1
  unfold isProvisional pyEndsWith
  rw [h1, List.reverse_append, rev_png, rev_crd, rev_tmp]
  simp only [List.cons_append]
  rw [hasStart_false_of_head_ne _ _ _ _ (by decide),
    hasStart_false_of_head_ne _ _ _ _ (by decide)]
  rfl

lemma pollOnce_true_iff (s l : List (List Char)) :
    pollOnce s l = true ↔ ∃ f, f ∈ l ∧ f ∉ s ∧ isProvisional f = false := by
  simp [pollOnce, List.isEmpty_iff, List.eq_nil_iff_forall_not_mem, List.mem_filter]
  constructor
  · rintro ⟨x, hxl, hdisj, hxs⟩
    rcases hdisj with h | h | h
    · exact absurd hxl h
    · exact ⟨x, hxl, hxs, h⟩
    · exact absurd h hxs
  · rintro ⟨f, hfl, hfs, hprov⟩
    exact ⟨f, hfl, Or.inr (Or.inl hprov), hfs⟩

lemma pollLoop_true_iff (s : List (List Char)) (dirAt : Nat → List (List Char)) :
    ∀ fuel i, pollLoop s dirAt fuel i = true ↔
      ∃ j, j < fuel ∧ pollOnce s (dirAt (i + j)) = true := by
  intro fuel
  induction fuel with
  | zero => intro i; simp [pollLoop]
  | succ n ih =>
    intro i
    rw [pollLoop]
    by_cases h : pollOnce s (dirAt i) = true
    · simp only [h, if_true, true_iff]
      exact ⟨0, Nat.succ_pos n, by simpa using h⟩
    · rw [if_neg (by simpa using h), ih (i + 1)]
      constructor
      · rintro ⟨j, hj, hp⟩
        exact ⟨j + 1, by omega, by rw [show i + (j + 1) = i + 1 + j by omega]; exact hp⟩
      · rintro ⟨j, hj, hp⟩
        cases j with
        | zero => rw [Nat.add_zero] at hp; exact absurd hp h
        | succ j =>
          exact ⟨j, by omega, by rw [show i + 1 + j = i + (j + 1) by omega]; exact hp⟩

lemma cnf_true_iff (s : List (List Char)) (dirAt : Nat → List (List Char)) (fuel : Nat) :
    check_new_file s true dirAt fuel = true ↔
      ∃ j, j < fuel ∧ ∃ f, f ∈ dirAt j ∧ f ∉ s ∧ isProvisional f = false := by
  show pollLoop s dirAt fuel 0 = true ↔ _
  rw [pollLoop_true_iff]
  simp only [Nat.zero_add, pollOnce_true_iff]

/-! ## Claim theorems about the download detector -/

/-- C4: for every trigger action that reports success, the download detector
returns true if and only if at some poll instant before the timeout a file
exists that was absent from the pre-trigger snapshot and whose name does not
end in a provisional suffix (`.crdownload` or `.tmp`, case-insensitive); in
particular it never returns true while the only new files are provisional,
and with no new non-provisional file before the timeout it returns false. -/
theorem check_new_file_true_iff (s : List (List Char)) (dirAt : Nat → List (List Char))
    (fuel : Nat) :
    check_new_file s true dirAt fuel = true ↔
      ∃ j, j < fuel ∧ ∃ f, f ∈ dirAt j ∧ f ∉ s ∧ isProvisional f = false :=
  cnf_true_iff s dirAt fuel

/-- C5: if the wrapped trigger action reports failure, the detector returns
false immediately; the result does not depend on the directory listings, so
no poll of the directory is consulted. -/
theorem check_new_file_trigger_failure (s : List (List Char))
    (dirAt dirAt' : Nat → List (List Char)) (fuel fuel' : Nat) :
    check_new_file s false dirAt fuel = false ∧
      check_new_file s false dirAt fuel = check_new_file s false dirAt' fuel' :=
  ⟨rfl, rfl⟩

/-- C8: success of the detector is decided only from files absent from the
pre-trigger snapshot — whenever it returns true, some polled listing held a
non-provisional file that is not in the snapshot; a file already present
before the trigger can never cause a true result. -/
theorem check_new_file_needs_new_file (s : List (List Char))
    (dirAt : Nat → List (List Char)) (fuel : Nat) (clicked : Bool)
    (h : check_new_file s clicked dirAt fuel = true) :
    ∃ j, j < fuel ∧ ∃ f, f ∈ dirAt j ∧ f ∉ s ∧ isProvisional f = false := by
  cases clicked with
  | false => exact absurd h (by simp [check_new_file])
  | true => exact (cnf_true_iff s dirAt fuel).mp h

/-- Witness for C8 at a concrete input. -/
theorem check_new_file_needs_new_file_witness :
    ∃ j, j < 1 ∧ ∃ f, f ∈ [[('a' : Char)]] ∧ f ∉ ([] : List (List Char)) ∧
      isProvisional f = false :=
  check_new_file_needs_new_file [] (fun _ => [['a']]) 1 true (by decide)

/-- C3: whenever both the screenshot capture and the click succeed inside
`file_download`, the wrapping detector returns true at its first poll even if
no download artifact ever appears: the timestamped `.png` screenshot saved
after the snapshot and before the click is itself a new non-provisional file
counted in the delta (the timestamped name is assumed fresh, i.e. absent from
the snapshot). -/
theorem file_download_screenshot_detected (s : List (List Char)) (ts : List Char)
    (base : Nat → List (List Char)) (fuel : Nat) (h : screenshotName ts ∉ s) :
    file_download s ts true true base (fuel + 1) = true := by
  unfold file_download
  rw [cnf_true_iff]
  exact ⟨0, Nat.succ_pos _, screenshotName ts, by simp, h, screenshot_not_provisional ts⟩

/-- Witness for C3 at a concrete input. -/
theorem file_download_screenshot_detected_witness :
    file_download [] ['t'] true true (fun _ => []) 1 = true :=
  file_download_screenshot_detected [] ['t'] (fun _ => []) 0 (by decide)

/-! ## Remote job orchestrator (`Geocoder.monitoring_progress`) -/

/-- Outcome of one `find_element` call as observed by `monitoring_progress`:
the call can raise an exception other than `TimeoutException` (`raised`),
return `False` (`notFound`, geocoder probes use `find_element(..., log=False)`),
or return an element whose `class` attribute reads `cls` (`found`). -/
inductive FindRes where
  | raised
  | notFound
  | found (cls : List Char)
deriving DecidableEq

/-- Observable actions of `monitoring_progress`, in program order. -/
inductive GEv where
  | switchWindow
  | fetchPage
  | probe
  | refresh
  | sleep (n : Nat)
  | relocate
  | downloadAttempt (ok : Bool)
  | clearHistory
deriving DecidableEq

/-- How the `while retries < max_retries` probe loop (geocoder.py lines
77-99) ends: `ok cls` — the download control was found and the loop broke;
`exhausted last` — the loop condition became false, with `last` the final
binding of `download_button` (`none`: never assigned, `some none`: `False`,
`some (some cls)`: an element); `budget` — the `retries > max_retries`
branch returned `False`. -/
inductive PollOut where
  | ok (cls : List Char)
  | exhausted (last : Option (Option (List Char)))
  | budget
deriving DecidableEq

/-- geocoder.py lines 77-99, the monitoring-row probe loop. `probe k` is the
result of the k-th `find_element` call; `fuel = 30 - k` counts the remaining
iterations allowed by `retries < max_retries`; `last` is the current binding
of `download_button` (unchanged when `find_element` raises, since the
assignment never completes). Events are recorded in execution order: the
`notFound` branch increments `retries`, tests `retries > max_retries`, then
refreshes; the `raised` branch increments, refreshes, sleeps 5, then tests. -/
def pollLoopGeo (probe : Nat → FindRes) :
    Nat → Nat → Option (Option (List Char)) → PollOut × List GEv
  | 0, _, last => (.exhausted last, [])
  | fuel + 1, k, last =>
    match probe k with
    | .found cls => (.ok cls, [.probe])
    | .notFound =>
      if k + 1 > 30 then (.budget, [.probe])
      else
        let r := pollLoopGeo probe fuel (k + 1) (some none)
        (r.1, .probe :: .refresh :: r.2)
    | .raised =>
      if k + 1 > 30 then (.budget, [.probe, .refresh, .sleep 5])
      else
        let r := pollLoopGeo probe fuel (k + 1) last
        (r.1, .probe :: .refresh :: .sleep 5 :: r.2)

/-- How the `while "disabled" in download_button.get_attribute("class")`
loop (geocoder.py lines 102-110) ends: `done cls` — the condition became
false with the control's class reading `cls`; `attrErr` — a relocation
returned `False`, so the next condition check calls `get_attribute` on
`False` and raises `AttributeError`; `fuelOut` — modelling fuel ran out
(the loop has no bound of its own). -/
inductive DLOut where
  | done (cls : List Char)
  | attrErr
  | fuelOut
deriving DecidableEq

/-- The characters of the Python literal `"disabled"`. -/
def disabledChars : List Char := ['d', 'i', 's', 'a', 'b', 'l', 'e', 'd']

/-- geocoder.py lines 102-110, the readiness (disabled-state) loop. Each
iteration whose condition holds refreshes, sleeps 10, and re-locates the
control; `reloc i` is the i-th relocation's outcome. A raising relocation is
swallowed by `except: pass`, leaving `download_button` — and hence the class
under test — unchanged. -/
def disabledLoop (reloc : Nat → FindRes) :
    Nat → Nat → List Char → DLOut × List GEv
  | 0, _, _ => (.fuelOut, [])
  | fuel + 1, i, cls =>
    if pyInStr disabledChars cls then
      match reloc i with
      | .found cls2 =>
        let r := disabledLoop reloc fuel (i + 1) cls2
        (r.1, .refresh :: .sleep 10 :: .relocate :: r.2)
      | .notFound => (.attrErr, [.refresh, .sleep 10, .relocate])
      | .raised =>
        let r := disabledLoop reloc fuel (i + 1) cls
        (r.1, .refresh :: .sleep 10 :: .relocate :: r.2)
    else (.done cls, [])

/-- Result of `monitoring_progress`: a returned boolean, an uncaught Python
exception (`exn`), or modelling fuel exhausted inside the unbounded
readiness loop (`spin`). -/
inductive MPRes where
  | ret (b : Bool)
  | exn
  | spin
deriving DecidableEq

/-- geocoder.py lines 112-119: after the probe loop delivers a control with
class `cls`, run the readiness loop, then invoke `file_download` (its boolean
result `downloadOk` is not inspected by the code), then click the row's
`내역삭제` (clear-history) control, and return `True`. -/
def afterPoll (reloc : Nat → FindRes) (downloadOk : Bool) (dfuel : Nat)
    (cls : List Char) : MPRes × List GEv :=
  match disabledLoop reloc dfuel 0 cls with
  | (.done _, evs) => (.ret true, evs ++ [.downloadAttempt downloadOk, .clearHistory])
  | (.attrErr, evs) => (.exn, evs)
  | (.fuelOut, evs) => (.spin, evs)

/-- `Geocoder.monitoring_progress` (geocoder.py lines 64-119). `popup` is the
result of the initial `switch_to_window` (on `False` the code falls back to
`fetch_page`); `probe` drives the probe loop, `reloc` the readiness loop;
`downloadOk` is the detector-wrapped download's result. An `exhausted` probe
loop reaches line 102 with `download_button` unbound (`NameError`) or bound
to `False` (`AttributeError`): either way an exception propagates. -/
def monitoring_progress (popup : Bool) (probe reloc : Nat → FindRes)
    (downloadOk : Bool) (dfuel : Nat) : MPRes × List GEv :=
  let pre : List GEv := if popup then [.switchWindow] else [.switchWindow, .fetchPage]
  match pollLoopGeo probe 30 0 none with
  | (.ok cls, evs) =>
    let r := afterPoll reloc downloadOk dfuel cls
    (r.1, pre ++ evs ++ r.2)
  | (.budget, evs) => (.ret false, pre ++ evs)
  | (.exhausted none, evs) => (.exn, pre ++ evs)
  | (.exhausted (some none), evs) => (.exn, pre ++ evs)
  | (.exhausted (some (some cls)), evs) =>
    let r := afterPoll reloc downloadOk dfuel cls
    (r.1, pre ++ evs ++ r.2)

/-! ## Lemmas about the orchestrator loops -/

/-- Step equation: probe loop iteration whose probe finds the control. -/
lemma pollLoopGeo_step_found (probe : Nat → FindRes) (fuel k : Nat)
    (last : Option (Option (List Char))) (cls : List Char)
    (h : probe k = FindRes.found cls) :
    pollLoopGeo probe (fuel + 1) k last = (.ok cls, [GEv.probe]) := by
  simp [pollLoopGeo, h]

/-- Step equation: probe loop iteration whose probe reports the control
absent (within the budget). -/
lemma pollLoopGeo_step_notFound (probe : Nat → FindRes) (fuel k : Nat)
    (last : Option (Option (List Char)))
    (h : probe k = FindRes.notFound) (h2 : ¬ k + 1 > 30) :
    pollLoopGeo probe (fuel + 1) k last =
      ((pollLoopGeo probe fuel (k + 1) (some none)).1,
        GEv.probe :: GEv.refresh :: (pollLoopGeo probe fuel (k + 1) (some none)).2) := by
  simp [pollLoopGeo, h, h2]

/-- Step equation: probe loop iteration whose probe raises (within the
budget); `download_button` keeps its previous binding. -/
lemma pollLoopGeo_step_raised (probe : Nat → FindRes) (fuel k : Nat)
    (last : Option (Option (List Char)))
    (h : probe k = FindRes.raised) (h2 : ¬ k + 1 > 30) :
    pollLoopGeo probe (fuel + 1) k last =
      ((pollLoopGeo probe fuel (k + 1) last).1,
        GEv.probe :: GEv.refresh :: GEv.sleep 5 :: (pollLoopGeo probe fuel (k + 1) last).2) := by
  simp [pollLoopGeo, h, h2]

/-- The `retries > max_retries` guard can never fire: entering an iteration
requires `retries < 30` and each iteration increments `retries` once, so the
incremented value is at most 30. -/
lemma pollLoopGeo_ne_budget (probe : Nat → FindRes) :
    ∀ fuel k last, k + fuel ≤ 30 → (pollLoopGeo probe fuel k last).1 ≠ PollOut.budget := by
  intro fuel
  induction fuel with
  | zero => intro k last h; simp [pollLoopGeo]
  | succ n ih =>
    intro k last h
    cases hp : probe k with
    | found cls => rw [pollLoopGeo_step_found probe n k last cls hp]; simp
    | notFound =>
      rw [pollLoopGeo_step_notFound probe n k last hp (by omega)]
      exact ih (k + 1) (some none) (by omega)
    | raised =>
      rw [pollLoopGeo_step_raised probe n k last hp (by omega)]
      exact ih (k + 1) last (by omega)

/-- Probe loop run in which the control is absent for the first `k` probes
and found on the next one: the loop breaks after `k + 1` probes with one
refresh between successive probes. -/
lemma pollLoopGeo_found (probe : Nat → FindRes) (cls : List Char) :
    ∀ k fuel j last, k < fuel → j + fuel ≤ 30 →
      (∀ i, i < k → probe (j + i) = FindRes.notFound) →
      probe (j + k) = FindRes.found cls →
      pollLoopGeo probe fuel j last =
        (.ok cls, (List.replicate k [GEv.probe, GEv.refresh]).flatten ++ [GEv.probe]) := by
  intro k
  induction k with
  | zero =>
    intro fuel j last hk hj habs hf
    cases fuel with
    | zero => omega
    | succ n =>
      rw [Nat.add_zero] at hf
      rw [pollLoopGeo_step_found probe n j last cls hf]
      simp
  | succ m ih =>
    intro fuel j last hk hj habs hf
    cases fuel with
    | zero => omega
    | succ n =>
      have h0 : probe j = FindRes.notFound := by
        have := habs 0 (Nat.succ_pos m)
        simpa using this
      rw [pollLoopGeo_step_notFound probe n j last h0 (by omega)]
      have hrec := ih n (j + 1) (some none) (by omega) (by omega)
        (fun i hi => by
          rw [show j + 1 + i = j + (i + 1) by omega]
          exact habs (i + 1) (by omega))
        (by rw [show j + 1 + m = j + (m + 1) by omega]; exact hf)
      rw [hrec]
      simp [List.replicate_succ]

/-- Number of probes in the trace of a successful probe-loop run. -/
lemma count_probe_trace (k : Nat) :
    ((List.replicate k [GEv.probe, GEv.refresh]).flatten ++ [GEv.probe]).count GEv.probe
      = k + 1 := by
  induction k with
  | zero => decide
  | succ n ih =>
    simp only [List.replicate_succ, List.flatten_cons, List.cons_append, List.count_cons,
      List.append_assoc] at ih ⊢
    simp_all [List.count_append]

/-- Step equation: readiness loop check that sees an enabled control. -/
lemma disabledLoop_step_done (reloc : Nat → FindRes) (fuel i : Nat) (cls : List Char)
    (h : pyInStr disabledChars cls = false) :
    disabledLoop reloc (fuel + 1) i cls = (.done cls, []) := by
  simp [disabledLoop, h]

/-- Step equation: readiness loop iteration that sees a disabled control and
relocates it successfully. -/
lemma disabledLoop_step_found (reloc : Nat → FindRes) (fuel i : Nat) (cls cls2 : List Char)
    (h : pyInStr disabledChars cls = true) (h2 : reloc i = FindRes.found cls2) :
    disabledLoop reloc (fuel + 1) i cls =
      ((disabledLoop reloc fuel (i + 1) cls2).1,
        GEv.refresh :: GEv.sleep 10 :: GEv.relocate :: (disabledLoop reloc fuel (i + 1) cls2).2) := by
  simp [disabledLoop, h, h2]

/-- Readiness loop run in which the control\'s class reads `c i` at the i-th
check, the first `m` checks carry the `disabled` marker, the next does not,
and every relocation succeeds: the loop performs exactly `m`
refresh/back-off/relocate iterations and stops at the control with class
`c m`. -/
lemma disabledLoop_done (reloc : Nat → FindRes) :
    ∀ (m : Nat) (c : Nat → List Char) (fuel j : Nat), m < fuel →
      (∀ i, i < m → pyInStr disabledChars (c i) = true) →
      pyInStr disabledChars (c m) = false →
      (∀ i, i < m → reloc (j + i) = FindRes.found (c (i + 1))) →
      disabledLoop reloc fuel j (c 0) =
        (.done (c m), (List.replicate m [GEv.refresh, GEv.sleep 10, GEv.relocate]).flatten) := by
  intro m
  induction m with
  | zero =>
    intro c fuel j hm hdis hen hrel
    cases fuel with
    | zero => omega
    | succ n =>
      rw [disabledLoop_step_done reloc n j (c 0) hen]
      simp
  | succ m ih =>
    intro c fuel j hm hdis hen hrel
    cases fuel with
    | zero => omega
    | succ n =>
      have hr0 : reloc j = FindRes.found (c 1) := by
        have := hrel 0 (Nat.succ_pos m)
        rwa [Nat.add_zero] at this
      rw [disabledLoop_step_found reloc n j (c 0) (c 1) (hdis 0 (Nat.succ_pos m)) hr0]
      have hrec : disabledLoop reloc n (j + 1) (c 1) =
          (DLOut.done (c (m + 1)),
            (List.replicate m [GEv.refresh, GEv.sleep 10, GEv.relocate]).flatten) :=
        ih (fun i => c (i + 1)) n (j + 1) (by omega)
          (fun i hi => hdis (i + 1) (by omega)) hen
          (fun i hi => by
            rw [show j + 1 + i = j + (i + 1) by omega]
            exact hrel (i + 1) (by omega))
      rw [hrec]
      simp [List.replicate_succ]

/-- `monitoring_progress` has no code path that returns `False` from the
readiness check onward: after the probe loop breaks successfully, the only
outcomes are `True`, an uncaught exception, or endless spinning. -/
lemma afterPoll_ne_ret_false (reloc : Nat → FindRes) (downloadOk : Bool)
    (dfuel : Nat) (cls : List Char) :
    (afterPoll reloc downloadOk dfuel cls).1 ≠ MPRes.ret false := by
  unfold afterPoll
  rcases h : disabledLoop reloc dfuel 0 cls with ⟨o, evs⟩
  cases o <;> simp

/-! ## Claim theorems about the orchestrator -/

/-- C2 (code bug): when the download control is reported absent on every
probe, the probe loop performs its 30 probes (one refresh between attempts)
and then `monitoring_progress` raises an uncaught `AttributeError`
(`download_button` is `False` at the `"disabled" in ...get_attribute` check)
instead of returning false; indeed no environment whatsoever can make
`monitoring_progress` return false, because the `retries > max_retries`
guard that would do so is unreachable. -/
theorem monitoring_all_absent_raises :
    (monitoring_progress true (fun _ => .notFound) (fun _ => .notFound) true 1 =
        (.exn, GEv.switchWindow :: (List.replicate 30 [GEv.probe, GEv.refresh]).flatten) ∧
      (GEv.switchWindow ::
        (List.replicate 30 [GEv.probe, GEv.refresh]).flatten).count GEv.probe = 30) ∧
      ∀ (popup downloadOk : Bool) (probe reloc : Nat → FindRes) (dfuel : Nat),
        (monitoring_progress popup probe reloc downloadOk dfuel).1 ≠ MPRes.ret false := by
  refine ⟨by decide, ?_⟩
  intro popup downloadOk probe reloc dfuel
  unfold monitoring_progress
  rcases h : pollLoopGeo probe 30 0 none with ⟨o, evs⟩
  have hb : o ≠ PollOut.budget := by
    have := pollLoopGeo_ne_budget probe 30 0 none (by omega)
    rw [h] at this
    exact this
  match o, hb with
  | PollOut.ok cls, _ =>
    simpa using afterPoll_ne_ret_false reloc downloadOk dfuel cls
  | PollOut.exhausted none, _ => simp
  | PollOut.exhausted (some none), _ => simp
  | PollOut.exhausted (some (some cls)), _ =>
    simpa using afterPoll_ne_ret_false reloc downloadOk dfuel cls

/-- C6: if the download control is absent on the first `k < 30` probes and
present on the (k+1)-th, the probe loop breaks successfully after exactly
`k + 1` probes, with one full page refresh between successive probes, and
`monitoring_progress` continues into the readiness check (its result and
remaining trace are exactly those of the post-poll phase `afterPoll`). -/
theorem monitoring_poll_succeeds_after_kp1 (k : Nat) (popup downloadOk : Bool)
    (probe reloc : Nat → FindRes) (cls : List Char) (dfuel : Nat)
    (hk : k < 30) (habs : ∀ i, i < k → probe i = FindRes.notFound)
    (hf : probe k = FindRes.found cls) :
    pollLoopGeo probe 30 0 none =
        (.ok cls, (List.replicate k [GEv.probe, GEv.refresh]).flatten ++ [GEv.probe]) ∧
      ((List.replicate k [GEv.probe, GEv.refresh]).flatten ++ [GEv.probe]).count GEv.probe
        = k + 1 ∧
      monitoring_progress popup probe reloc downloadOk dfuel =
        ((afterPoll reloc downloadOk dfuel cls).1,
          (if popup then [GEv.switchWindow] else [GEv.switchWindow, GEv.fetchPage]) ++
            ((List.replicate k [GEv.probe, GEv.refresh]).flatten ++ [GEv.probe]) ++
            (afterPoll reloc downloadOk dfuel cls).2) := by
  have hpoll := pollLoopGeo_found probe cls k 30 0 none hk (by omega)
    (fun i hi => by simpa using habs i hi) (by simpa using hf)
  refine ⟨hpoll, count_probe_trace k, ?_⟩
  unfold monitoring_progress
  rw [hpoll]

/-- Witness for C6 at `k = 2`. -/
theorem monitoring_poll_succeeds_after_kp1_witness :
    pollLoopGeo (fun i => if i < 2 then FindRes.notFound else FindRes.found ['x']) 30 0 none =
        (.ok ['x'], (List.replicate 2 [GEv.probe, GEv.refresh]).flatten ++ [GEv.probe]) ∧
      ((List.replicate 2 [GEv.probe, GEv.refresh]).flatten ++ [GEv.probe]).count GEv.probe
        = 2 + 1 ∧
      monitoring_progress true (fun i => if i < 2 then FindRes.notFound else FindRes.found ['x'])
          (fun _ => FindRes.raised) true 0 =
        ((afterPoll (fun _ => FindRes.raised) true 0 ['x']).1,
          (if true then [GEv.switchWindow] else [GEv.switchWindow, GEv.fetchPage]) ++
            ((List.replicate 2 [GEv.probe, GEv.refresh]).flatten ++ [GEv.probe]) ++
            (afterPoll (fun _ => FindRes.raised) true 0 ['x']).2) :=
  monitoring_poll_succeeds_after_kp1 2 true true
    (fun i => if i < 2 then FindRes.notFound else FindRes.found ['x'])
    (fun _ => FindRes.raised) ['x'] 0 (by omega) (by decide) (by decide)

/-- C7: if the located control's class carries the `disabled` marker at the
first `m` checks and not at the next one, and each relocation succeeds, the
readiness loop performs exactly `m` refresh/back-off/relocate iterations
(for any `m`, the loop having no bound of its own) and then the
detector-wrapped download step runs exactly once, followed by the single
clear-history click. -/
theorem readiness_loop_exact_iterations (m dfuel : Nat) (downloadOk : Bool)
    (reloc : Nat → FindRes) (c : Nat → List Char)
    (hfuel : m < dfuel)
    (hdis : ∀ i, i < m → pyInStr disabledChars (c i) = true)
    (hen : pyInStr disabledChars (c m) = false)
    (hrel : ∀ i, i < m → reloc i = FindRes.found (c (i + 1))) :
    afterPoll reloc downloadOk dfuel (c 0) =
      (.ret true, (List.replicate m [GEv.refresh, GEv.sleep 10, GEv.relocate]).flatten ++
        [GEv.downloadAttempt downloadOk, GEv.clearHistory]) := by
  have hloop := disabledLoop_done reloc m c dfuel 0 hfuel hdis hen
    (fun i hi => by simpa using hrel i hi)
  unfold afterPoll
  rw [hloop]

/-- Witness for C7 at `m = 1`. -/
theorem readiness_loop_exact_iterations_witness :
    afterPoll (fun _ => FindRes.found []) false 2
        ((fun i => if i = 0 then disabledChars else []) 0) =
      (.ret true, (List.replicate 1 [GEv.refresh, GEv.sleep 10, GEv.relocate]).flatten ++
        [GEv.downloadAttempt false, GEv.clearHistory]) :=
  readiness_loop_exact_iterations 1 2 false (fun _ => FindRes.found [])
    (fun i => if i = 0 then disabledChars else []) (by omega) (by decide) (by decide)
    (by decide)

/-- C1 counterexample: a run whose detector-wrapped download reports failure
(`downloadOk = false`) in which `monitoring_progress` nevertheless clicks the
clear-history control exactly once and returns true — the claim said that on
download failure no clear-history action is issued and the orchestrator
returns false. -/
theorem clear_history_on_failure_cex :
    monitoring_progress true (fun _ => FindRes.found []) (fun _ => FindRes.raised) false 1 =
      (.ret true,
        [GEv.switchWindow, GEv.probe, GEv.downloadAttempt false, GEv.clearHistory]) ∧
      ([GEv.switchWindow, GEv.probe, GEv.downloadAttempt false,
        GEv.clearHistory].count GEv.clearHistory = 1) := by
  decide

/-- C1 as amended: after the detector-wrapped download is invoked, the row's
clear-history control is invoked exactly once and `monitoring_progress`
returns true regardless of whether the download succeeded or failed — the
code never inspects `file_download`'s result. -/
theorem clear_history_always_invoked (popup downloadOk : Bool)
    (probe reloc : Nat → FindRes) (cls : List Char) (dfuel : Nat)
    (h0 : probe 0 = FindRes.found cls) (hen : pyInStr disabledChars cls = false)
    (hd : 0 < dfuel) :
    (monitoring_progress popup probe reloc downloadOk dfuel).1 = .ret true ∧
      (monitoring_progress popup probe reloc downloadOk dfuel).2.count GEv.clearHistory = 1 ∧
      (monitoring_progress popup probe reloc downloadOk dfuel).2.count
        (GEv.downloadAttempt downloadOk) = 1 := by
  have hpoll := pollLoopGeo_found probe cls 0 30 0 none (by omega) (by omega)
    (fun i hi => absurd hi (Nat.not_lt_zero i)) (by simpa using h0)
  obtain ⟨n, rfl⟩ : ∃ n, dfuel = n + 1 := ⟨dfuel - 1, by omega⟩
  have hafter : afterPoll reloc downloadOk (n + 1) cls =
      (.ret true, [GEv.downloadAttempt downloadOk, GEv.clearHistory]) := by
    unfold afterPoll
    rw [disabledLoop_step_done reloc n 0 cls hen]
    rfl
  have hmp : monitoring_progress popup probe reloc downloadOk (n + 1) =
      ((afterPoll reloc downloadOk (n + 1) cls).1,
        (if popup then [GEv.switchWindow] else [GEv.switchWindow, GEv.fetchPage]) ++
          ((List.replicate 0 [GEv.probe, GEv.refresh]).flatten ++ [GEv.probe]) ++
          (afterPoll reloc downloadOk (n + 1) cls).2) := by
    unfold monitoring_progress
    rw [hpoll]
  rw [hmp, hafter]
  cases popup <;> cases downloadOk <;> decide

/-- Witness for the amended C1 with a failing download. -/
theorem clear_history_always_invoked_witness :
    (monitoring_progress false (fun _ => FindRes.found ['x'])
        (fun _ => FindRes.notFound) false 3).1 = .ret true ∧
      (monitoring_progress false (fun _ => FindRes.found ['x'])
        (fun _ => FindRes.notFound) false 3).2.count GEv.clearHistory = 1 ∧
      (monitoring_progress false (fun _ => FindRes.found ['x'])
        (fun _ => FindRes.notFound) false 3).2.count (GEv.downloadAttempt false) = 1 :=
  clear_history_always_invoked false false (fun _ => FindRes.found ['x'])
    (fun _ => FindRes.notFound) ['x'] 3 (by decide) (by decide) (by omega)

/-! ## Load-Wait protocol (`SeleniumScraper._wait_for_page_load`) -/

/-- Outcome of one alert probe in `_yes_to_alert`: the driver either exposes
an open dialog (`present`, which the loop accepts) or raises
`NoAlertPresentException`/`NoSuchWindowException` (`absent`, which breaks the
loop). -/
inductive AlertRes where
  | present
  | absent
deriving DecidableEq

/-- Outcome of one bounded readiness wait (selenium_scraper.py lines
424-432): the `document.readyState == "complete"` poll succeeds, raises
`TimeoutException`, or raises `UnexpectedAlertPresentException`. -/
inductive ReadyRes where
  | complete
  | timedOut
  | unexpectedAlert
deriving DecidableEq

/-- Observable actions of the Load-Wait protocol. -/
inductive WEv where
  | dismiss
  | readyPoll
deriving DecidableEq

/-- selenium_scraper.py `_yes_to_alert` (lines 436-446): sleep, probe the
alert, accept it and loop while one is present, break when the probe raises.
`al j` is the j-th alert probe overall; returns the next unused probe index
and the dismissals performed, or `none` when the modelling fuel runs out
(the loop is unbounded by design). -/
def yesToAlert (al : Nat → AlertRes) : Nat → Nat → Option (Nat × List WEv)
  | 0, _ => none
  | fuel + 1, j =>
    match al j with
    | .present =>
      match yesToAlert al fuel (j + 1) with
      | none => none
      | some (j2, evs) => some (j2, .dismiss :: evs)
    | .absent => some (j + 1, [])

/-- selenium_scraper.py `_wait_for_page_load` (lines 408-434): dismiss open
dialogs, then run one bounded readiness wait; on success return `true`, on
`TimeoutException` return `false`, on `UnexpectedAlertPresentException`
dismiss again and restart the whole protocol. `rd r` is the r-th readiness
wait's outcome; `j` threads the global alert-probe index; the outer fuel
bounds the number of protocol restarts in the model. -/
def waitForPageLoad (al : Nat → AlertRes) (rd : Nat → ReadyRes) (afuel : Nat) :
    Nat → Nat → Nat → Option (Bool × List WEv)
  | 0, _, _ => none
  | fuel + 1, j, r =>
    match yesToAlert al afuel j with
    | none => none
    | some (j1, evs1) =>
      match rd r with
      | .complete => some (true, evs1 ++ [.readyPoll])
      | .timedOut => some (false, evs1 ++ [.readyPoll])
      | .unexpectedAlert =>
        match yesToAlert al afuel j1 with
        | none => none
        | some (j2, evs2) =>
          match waitForPageLoad al rd afuel fuel j2 (r + 1) with
          | none => none
          | some (b, evs3) => some (b, evs1 ++ [.readyPoll] ++ evs2 ++ evs3)

/-- Alert loop run against `n` successive dialog presentations followed by
an absent probe: exactly `n` dismissals, consuming `n + 1` probes. -/
lemma yesToAlert_spec (al : Nat → AlertRes) :
    ∀ (n fuel j : Nat), n < fuel →
      (∀ i, i < n → al (j + i) = AlertRes.present) → al (j + n) = AlertRes.absent →
      yesToAlert al fuel j = some (j + n + 1, List.replicate n WEv.dismiss) := by
  intro n
  induction n with
  | zero =>
    intro fuel j hn hp ha
    cases fuel with
    | zero => omega
    | succ f =>
      rw [Nat.add_zero] at ha
      simp [yesToAlert, ha]
  | succ m ih =>
    intro fuel j hn hp ha
    cases fuel with
    | zero => omega
    | succ f =>
      have h0 : al j = AlertRes.present := by simpa using hp 0 (Nat.succ_pos m)
      have hrec := ih f (j + 1) (by omega)
        (fun i hi => by
          rw [show j + 1 + i = j + (i + 1) by omega]
          exact hp (i + 1) (by omega))
        (by rw [show j + 1 + m = j + (m + 1) by omega]; exact ha)
      simp only [yesToAlert, h0, hrec]
      rw [show j + 1 + m + 1 = j + (m + 1) + 1 by omega]
      simp [List.replicate_succ]

/-- C9: the Load-Wait protocol dismisses dialogs until none remains before
any readiness polling — `N` successive presentations produce exactly `N`
dismissals before the first readiness poll; a dialog appearing during the
readiness wait (`UnexpectedAlertPresentException`) is dismissed and the
whole protocol restarts; and the terminal result is the boolean `true`/
`false`, every listed exception being absorbed by the protocol rather than
propagated. -/
theorem wait_for_page_load_protocol (N : Nat) (al : Nat → AlertRes) (rd : Nat → ReadyRes)
    (hpre : ∀ i, i < N → al i = AlertRes.present)
    (habs : al N = AlertRes.absent)
    (hrd0 : rd 0 = ReadyRes.unexpectedAlert)
    (hre : al (N + 1) = AlertRes.present)
    (habs2 : al (N + 2) = AlertRes.absent)
    (habs3 : al (N + 3) = AlertRes.absent)
    (hrd1 : rd 1 = ReadyRes.complete) :
    waitForPageLoad al rd (N + 2) 2 0 0 =
      some (true, List.replicate N WEv.dismiss ++ [WEv.readyPoll] ++
        [WEv.dismiss] ++ [WEv.readyPoll]) := by
  have h1 : yesToAlert al (N + 2) 0 = some (N + 1, List.replicate N WEv.dismiss) := by
    have := yesToAlert_spec al N (N + 2) 0 (by omega)
      (fun i hi => by simpa using hpre i hi) (by simpa using habs)
    simpa using this
  have h2 : yesToAlert al (N + 2) (N + 1) = some (N + 3, [WEv.dismiss]) := by
    have := yesToAlert_spec al 1 (N + 2) (N + 1) (by omega)
      (fun i hi => by
        have hi0 : i = 0 := by omega
        subst hi0
        simpa using hre)
      (by rw [show N + 1 + 1 = N + 2 by omega]; exact habs2)
    simpa using this
  have h3 : yesToAlert al (N + 2) (N + 3) = some (N + 4, []) := by
    have := yesToAlert_spec al 0 (N + 2) (N + 3) (by omega)
      (fun i hi => absurd hi (Nat.not_lt_zero i)) (by simpa using habs3)
    simpa using this
  simp only [waitForPageLoad, h1, hrd0, h2, h3, hrd1]
  simp

/-- Witness for C9 at `N = 1`. -/
theorem wait_for_page_load_protocol_witness :
    waitForPageLoad (fun j => if j = 0 ∨ j = 2 then AlertRes.present else AlertRes.absent)
        (fun r => if r = 0 then ReadyRes.unexpectedAlert else ReadyRes.complete) (1 + 2) 2 0 0 =
      some (true, List.replicate 1 WEv.dismiss ++ [WEv.readyPoll] ++
        [WEv.dismiss] ++ [WEv.readyPoll]) :=
  wait_for_page_load_protocol 1
    (fun j => if j = 0 ∨ j = 2 then AlertRes.present else AlertRes.absent)
    (fun r => if r = 0 then ReadyRes.unexpectedAlert else ReadyRes.complete)
    (by decide) (by decide) (by decide) (by decide) (by decide) (by decide) (by decide)

/-! ## Action primitives (`SeleniumScraper`) -/

/-- Opaque handle to a located DOM element. -/
def Elem := Nat

/-- The Python exceptions in scope of the primitives' bounded waits. -/
inductive PyExn where
  | timeoutExn
deriving DecidableEq

/-- Outcome of one `WebDriverWait(...).until(...)` call: delivers a value or
times out. -/
inductive WaitRes (α : Type) where
  | ok (a : α)
  | timeout

/-- `WebDriverWait.until` raises `TimeoutException` when the wait expires. -/
def webDriverWait {α : Type} (o : WaitRes α) : Except PyExn α :=
  match o with
  | .ok a => .ok a
  | .timeout => .error .timeoutExn

/-- selenium_scraper.py `find_element` (lines 80-101): the wait is wrapped in
`try/except TimeoutException`, which returns `False` (modelled `none`). -/
def find_element (o : WaitRes Elem) : Except PyExn (Option Elem) :=
  match webDriverWait o with
  | .ok e => .ok (some e)
  | .error .timeoutExn => .ok none

/-- selenium_scraper.py `find_all_elements` (lines 103-125): as
`find_element` but for the all-elements wait. -/
def find_all_elements (o : WaitRes (List Elem)) : Except PyExn (Option (List Elem)) :=
  match webDriverWait o with
  | .ok es => .ok (some es)
  | .error .timeoutExn => .ok none

/-- selenium_scraper.py `send_key` (lines 53-78): locate, then type; returns
`True` only when the locate produced a `WebElement`. -/
def send_key (o : WaitRes Elem) : Except PyExn Bool :=
  match find_element o with
  | .ok (some _) => .ok true
  | .ok none => .ok false
  | .error e => .error e

/-- selenium_scraper.py `click_element` (lines 127-149): wait for
clickability (`TimeoutException` caught, returning `False`), click, then
return the Load-Wait result `loadOk`. -/
def click_element (o : WaitRes Elem) (loadOk : Bool) : Except PyExn Bool :=
  match webDriverWait o with
  | .ok _ => .ok loadOk
  | .error .timeoutExn => .ok false

/-- selenium_scraper.py `select_by_option_value` (lines 175-202): locate the
select, then `select_by_value` inside `try/except Exception`; `valueValid`
tells whether the requested value is a valid option. -/
def select_by_option_value (o : WaitRes Elem) (valueValid : Bool) : Except PyExn Bool :=
  match find_element o with
  | .ok (some _) => .ok valueValid
  | .ok none => .ok false
  | .error e => .error e

/-- selenium_scraper.py `switch_to_window` (lines 204-233): wait for the
window count (`TimeoutException` caught, returning `False`), then scan the
handles' URLs for the substring, returning `True` on the first match and
`False` when none matches. -/
def switch_to_window (o : WaitRes Unit) (urls : List (List Char)) (sub : List Char) :
    Except PyExn Bool :=
  match webDriverWait o with
  | .ok _ => .ok (urls.any (fun u => pyInStr sub u))
  | .error .timeoutExn => .ok false

/-- selenium_scraper.py `switch_to_iframe` (lines 235-253): locate the
iframe, switch into it when found. -/
def switch_to_iframe (o : WaitRes Elem) : Except PyExn Bool :=
  match find_element o with
  | .ok (some _) => .ok true
  | .ok none => .ok false
  | .error e => .error e

/-- selenium_scraper.py `fetch_page` (lines 35-51): `driver.get`, then the
Load-Wait protocol, whose boolean result `loadOk` is returned. -/
def fetch_page (loadOk : Bool) : Except PyExn Bool :=
  .ok loadOk

/-- C10: every action primitive maps an absent element/window within the
bounded wait (the NotFound and Timeout conditions) to a boolean or sentinel
return value — over the whole outcome space each primitive returns a value,
never an uncaught exception, and the timeout/no-match outcomes yield
`False`/`None` specifically. -/
theorem primitives_never_raise :
    (∀ o : WaitRes Elem, ∃ r, find_element o = .ok r) ∧
      find_element .timeout = .ok none ∧
      (∀ o : WaitRes (List Elem), ∃ r, find_all_elements o = .ok r) ∧
      find_all_elements .timeout = .ok none ∧
      (∀ o : WaitRes Elem, ∃ b, send_key o = .ok b) ∧
      send_key .timeout = .ok false ∧
      (∀ (o : WaitRes Elem) (lo : Bool), ∃ b, click_element o lo = .ok b) ∧
      (∀ lo : Bool, click_element .timeout lo = .ok false) ∧
      (∀ (o : WaitRes Elem) (v : Bool), ∃ b, select_by_option_value o v = .ok b) ∧
      (∀ v : Bool, select_by_option_value .timeout v = .ok false) ∧
      (∀ (o : WaitRes Unit) (urls : List (List Char)) (sub : List Char),
        ∃ b, switch_to_window o urls sub = .ok b) ∧
      (∀ (urls : List (List Char)) (sub : List Char),
        switch_to_window .timeout urls sub = .ok false) ∧
      (∀ (urls : List (List Char)) (sub : List Char),
        switch_to_window (.ok ()) urls sub = .ok (urls.any (fun u => pyInStr sub u))) ∧
      (∀ o : WaitRes Elem, ∃ b, switch_to_iframe o = .ok b) ∧
      switch_to_iframe .timeout = .ok false ∧
      (∀ lo : Bool, ∃ b, fetch_page lo = .ok b) := by
  refine ⟨fun o => ?_, rfl, fun o => ?_, rfl, fun o => ?_, rfl, fun o lo => ?_,
    fun lo => rfl, fun o v => ?_, fun v => rfl, fun o urls sub => ?_,
    fun urls sub => rfl, fun urls sub => rfl, fun o => ?_, rfl, fun lo => ⟨lo, rfl⟩⟩ <;>
    cases o <;> exact ⟨_, rfl⟩

end Automation
